import Mathlib

/-
  Verification of the PBKDF2-HMAC key-derivation core exposed by
  `OpenSSL::KDF.pbkdf2_hmac` (src/ext/openssl/ossl_kdf.c).

  The C file in the repository is a thin binding: `kdf_pbkdf2_hmac` marshals
  (pass, salt, iterations, length, hash) and delegates the entire derivation
  to the collaborating library routine `PKCS5_PBKDF2_HMAC`, whose source is
  not part of this repository.  The algorithmic core (HMAC-as-PRF
  composition, block generation, iterated XOR folding, exact-length
  assembly, and the error taxonomy) is therefore modelled here from the
  specification (RFC 8018 §5.2 / RFC 2898 §5.2, HMAC per RFC 2104, SHA-1 per
  RFC 3174).

  Representation choices: a byte sequence at the interface level is a list
  of naturals below 256.  Inside the hash, a message is carried as its
  big-endian radix-256 value (a single natural), and 32-bit machine words
  are naturals reduced modulo 2^32 explicitly wherever overflow matters;
  this packed form keeps every step a plain arithmetic operation.  The
  packed SHA-1 and HMAC are validated below against the RFC 3174 / RFC 2202
  test vectors, and the whole derivation against the RFC 6070 vectors.
-/

set_option maxRecDepth 1000000
set_option exponentiation.threshold 1024

namespace OsslKDF

/-- Byte sequences: each entry denotes one octet (a natural below 256). -/
abbrev Bytes := List Nat

/-- Modulus of one 64-byte SHA-1 message block, 2^512 (written as a literal
    so reduction never re-computes the power). -/
def p512 : Nat :=
  0x100000000000000000000000000000000000000000000000000000000000000000000000000000000000000000000000000000000000000000000000000000000

/-- Left rotation of a 32-bit word by one position.  The hot SHA-1 path is
    written with the primitive operations `Nat.shiftLeft`, `Nat.shiftRight`,
    `Nat.land`, `Nat.lor`, `Nat.xor`, `Nat.add` and `Nat.mod` applied
    directly (they are what the infix operators denote) so that reduction
    performs one arithmetic step per application. -/
def rotl1 (n : Nat) : Nat :=
  Nat.lor (Nat.land (Nat.shiftLeft n 1) 4294967295) (Nat.shiftRight n 31)

/-- Left rotation of a 32-bit word by five positions. -/
def rotl5 (n : Nat) : Nat :=
  Nat.lor (Nat.land (Nat.shiftLeft n 5) 4294967295) (Nat.shiftRight n 27)

/-- Left rotation of a 32-bit word by thirty positions. -/
def rotl30 (n : Nat) : Nat :=
  Nat.lor (Nat.land (Nat.shiftLeft n 30) 4294967295) (Nat.shiftRight n 2)

/-- The Ch round function of SHA-1, rounds 0-19 (RFC 3174 §5): (b and c)
    or ((not b) and d), the complement taken against the 32-bit mask. -/
def sha1ch (b c d : Nat) : Nat :=
  Nat.lor (Nat.land b c) (Nat.land (Nat.sub 4294967295 b) d)

/-- The Parity round function of SHA-1, rounds 20-39 and 60-79. -/
def sha1parity (b c d : Nat) : Nat :=
  Nat.xor (Nat.xor b c) d

/-- The Maj round function of SHA-1, rounds 40-59. -/
def sha1maj (b c d : Nat) : Nat :=
  Nat.lor (Nat.lor (Nat.land b c) (Nat.land b d)) (Nat.land c d)

/-- The type of a SHA-1 round continuation: a function of the sixteen most
    recent message-schedule words W_{t-16}..W_{t-1} (oldest first) and the
    five working variables a, b, c, d, e. -/
abbrev Sha1Cont := Nat → Nat → Nat → Nat → Nat → Nat → Nat → Nat → Nat → Nat → Nat →
  Nat → Nat → Nat → Nat → Nat → Nat → Nat → Nat → Nat → Nat → Nat

/-- The end of the 80 rounds: add the final working variables into the
    entry state a..e word-wise modulo 2^32 and pack the five words
    big-endian into the 160-bit result (RFC 3174 §6.1 step e). -/
def sha1fin (a b c d e : Nat) : Sha1Cont :=
  fun _ _ _ _ _ _ _ _ _ _ _ _ _ _ _ _ a2 b2 c2 d2 e2 =>
    Nat.lor (Nat.shiftLeft (Nat.mod (Nat.add a a2) 4294967296) 128)
      (Nat.lor (Nat.shiftLeft (Nat.mod (Nat.add b b2) 4294967296) 96)
        (Nat.lor (Nat.shiftLeft (Nat.mod (Nat.add c c2) 4294967296) 64)
          (Nat.lor (Nat.shiftLeft (Nat.mod (Nat.add d d2) 4294967296) 32)
            (Nat.mod (Nat.add e e2) 4294967296))))

/-- A run of `fuel` SHA-1 rounds with a fixed round function `f` and round
    constant `K` (RFC 3174 splits rounds 16..79 into phases of constant f
    and K), continuing with `k`.  The schedule word is
    rotl1 of W_{t-3} xor W_{t-8} xor W_{t-14} xor W_{t-16} (RFC 3174 §6.1
    step b); the window arguments slide by one each round.  Written with a
    bare `Nat.rec` over separate 32-bit words so that reduction performs
    one small arithmetic step per operation. -/
def sha1phase (K : Nat) (f : Nat → Nat → Nat → Nat) (k : Sha1Cont) (fuel : Nat) : Sha1Cont :=
  @Nat.rec (fun _ => Sha1Cont)
    k
    (fun _ ih w1 w2 w3 w4 w5 w6 w7 w8 w9 w10 w11 w12 w13 w14 w15 w16 a b c d e =>
      let w := rotl1 (Nat.xor (Nat.xor w14 w9) (Nat.xor w3 w1))
      ih w2 w3 w4 w5 w6 w7 w8 w9 w10 w11 w12 w13 w14 w15 w16 w
        (Nat.mod (Nat.add (Nat.add (Nat.add (Nat.add (rotl5 a) (f b c d)) e) w) K) 4294967296)
        a (rotl30 b) c d)
    fuel

/-- The first sixteen SHA-1 rounds (t = 0..15): the schedule word is the
    next 32-bit word of the message block `blk` (consumed from the top),
    the round function is Ch and the constant is K_0 = 0x5A827999; each
    word also slides into the window, seeding the schedule recurrence of
    the later rounds. -/
def sha1load (k : Sha1Cont) (fuel : Nat) : Nat → Sha1Cont :=
  @Nat.rec (fun _ => Nat → Sha1Cont)
    (fun _ => k)
    (fun _ ih blk _w1 w2 w3 w4 w5 w6 w7 w8 w9 w10 w11 w12 w13 w14 w15 w16 a b c d e =>
      let w := Nat.shiftRight blk 480
      ih (Nat.mod (Nat.shiftLeft blk 32) p512)
        w2 w3 w4 w5 w6 w7 w8 w9 w10 w11 w12 w13 w14 w15 w16 w
        (Nat.mod (Nat.add (Nat.add (Nat.add (Nat.add (rotl5 a) (sha1ch b c d)) e) w) 0x5A827999) 4294967296)
        a (rotl30 b) c d)
    fuel

/-- One SHA-1 compression: unpack the 160-bit chaining state, run the 80
    rounds — sixteen message-loading Ch rounds, four more Ch rounds, then
    the three twenty-round phases of Parity, Maj and Parity with constants
    K_1 = 0x6ED9EBA1, K_2 = 0x8F1BBCDC, K_3 = 0xCA62C1D6 — and finish by
    adding the result back into the state (via `sha1fin`).  The initial
    window words are irrelevant (they slide out during loading) and enter
    as zeros. -/
def sha1compress (state blk : Nat) : Nat :=
  let a := Nat.land (Nat.shiftRight state 128) 4294967295
  let b := Nat.land (Nat.shiftRight state 96) 4294967295
  let c := Nat.land (Nat.shiftRight state 64) 4294967295
  let d := Nat.land (Nat.shiftRight state 32) 4294967295
  let e := Nat.land state 4294967295
  sha1load
    (sha1phase 0x5A827999 sha1ch
      (sha1phase 0x6ED9EBA1 sha1parity
        (sha1phase 0x8F1BBCDC sha1maj
          (sha1phase 0xCA62C1D6 sha1parity (sha1fin a b c d e) 20) 20) 20) 4)
    16 blk 0 0 0 0 0 0 0 0 0 0 0 0 0 0 0 0 a b c d e

/-- Fold the compression function over the `nb` 512-bit blocks of the padded
    message, highest (earliest) block first. -/
def sha1blocksGo (padded : Nat) (nb : Nat) : Nat → Nat :=
  @Nat.rec (fun _ => Nat → Nat)
    (fun state => state)
    (fun k ih state => ih (sha1compress state (Nat.mod (Nat.shiftRight padded (Nat.mul 512 k)) p512)))
    nb

/-- Modelled from the spec: SHA-1 (RFC 3174) of a `len`-byte message whose
    big-endian radix-256 value is `content`; the hash implementations backing
    the HMAC-PRF adapter are external collaborators absent from src/.
    Padding (RFC 3174 §4): append the byte 0x80, then `zeros` zero bytes so
    that the total length is 56 mod 64, then the 64-bit big-endian bit
    length; the padded message is a whole number of 64-byte blocks.  The
    result is the 160-bit digest value. -/
def sha1P (len content : Nat) : Nat :=
  let zeros := (55 + 64 - len % 64) % 64
  let padded := Nat.add (Nat.shiftLeft (Nat.add (Nat.mul content 256) 128) (8 * zeros + 64)) (8 * len)
  sha1blocksGo padded ((len + 9 + zeros) / 64) 0x67452301EFCDAB8998BADCFE10325476C3D2E1F0

/-- Big-endian radix-256 value of a byte sequence. -/
def natOfBytes (bs : Bytes) : Nat := bs.foldl (fun acc b => Nat.add (Nat.mul acc 256) b) 0

/-- The `len` big-endian bytes of a natural (most significant first). -/
def bytesOfNat : Nat → Nat → Bytes
  | 0, _ => []
  | k + 1, n => (Nat.land (Nat.shiftRight n (Nat.mul 8 k)) 255) :: bytesOfNat k n

/-- SHA-1 on byte sequences: pack, hash, unpack the 20-byte digest. -/
def sha1 (msg : Bytes) : Bytes :=
  bytesOfNat 20 (sha1P msg.length (natOfBytes msg))

/-- The HMAC inner padding: 64 bytes of 0x36 (RFC 2104). -/
def ipadW : Nat :=
  0x36363636363636363636363636363636363636363636363636363636363636363636363636363636363636363636363636363636363636363636363636363636

/-- The HMAC outer padding: 64 bytes of 0x5c (RFC 2104). -/
def opadW : Nat :=
  0x5c5c5c5c5c5c5c5c5c5c5c5c5c5c5c5c5c5c5c5c5c5c5c5c5c5c5c5c5c5c5c5c5c5c5c5c5c5c5c5c5c5c5c5c5c5c5c5c5c5c5c5c5c5c5c5c5c5c5c5c5c5c5c5c

/-- Modelled from the spec: the HMAC-SHA1 construction (RFC 2104), the
    HMAC-PRF adapter of §4.1 — `prf(key, message) -> digest` of fixed length
    hLen = 20; the HMAC implementation is an external collaborator absent
    from src/.  A key longer than the 64-byte block is first hashed; the
    (possibly hashed) key is zero-padded to 64 bytes, XORed with the inner
    and outer pads, and the digest is
    SHA1(opadkey || SHA1(ipadkey || message)). -/
def hmacSha1 (key msg : Bytes) : Bytes :=
  let k0 := if key.length > 64 then sha1 key else key
  let kn := Nat.shiftLeft (natOfBytes k0) (8 * (64 - k0.length))
  let inner := sha1P (64 + msg.length)
    (Nat.add (Nat.shiftLeft (Nat.xor kn ipadW) (8 * msg.length)) (natOfBytes msg))
  bytesOfNat 20 (sha1P 84 (Nat.add (Nat.shiftLeft (Nat.xor kn opadW) 160) inner))

/-- A PRF capability (§3, §4.1): a pure function of (key, message) returning
    a digest of fixed length `hLen`.  The engine is polymorphic over this
    capability and never inspects which concrete hash backs it. -/
structure PRF where
  hLen : Nat
  run : Bytes → Bytes → Bytes

/-- The HMAC-SHA1 PRF capability (hLen = 20). -/
def hmacSHA1prf : PRF := ⟨20, hmacSha1⟩

/-- Modelled from the spec: resolution of the caller-supplied hash
    identifier to a PRF capability (§4.1, §6); an identifier the
    collaborating hash library does not implement resolves to `none`.  Only
    the hash modelled in this development is resolvable. -/
def resolvePRF (hash : String) : Option PRF :=
  if hash = ("sha1") then some hmacSHA1prf else none

/-- Error taxonomy of the derivation call (§7). -/
inductive KDFError where
  | invalidParameter
  | unsupportedHashAlgorithm
  | outputTooLarge
deriving DecidableEq

/-- INT(i): the big-endian 4-byte encoding of the 32-bit block index
    (§4.2 step 3a). -/
def int32be (i : Nat) : Bytes :=
  [(i >>> 24) % 256, (i >>> 16) % 256, (i >>> 8) % 256, i % 256]

/-- Lane-wise XOR of two equal-length byte buffers (§4.2 step 3d). -/
def xorBytes (a b : Bytes) : Bytes :=
  List.zipWith (fun x y => x ^^^ y) a b

/-- Modelled from the spec: the inner iteration loop of one block (§4.2
    steps 3c-3d) in its incremental-accumulator form — from the current
    U value and the running XOR accumulator, apply the PRF `fuel` more
    times, XOR-ing each new U into the accumulator and discarding it.
    Written with a bare `Nat.rec` so that reduction stays cheap. -/
def blockIter (prf : PRF) (pass : Bytes) (fuel : Nat) : Bytes → Bytes → Bytes :=
  @Nat.rec (fun _ => Bytes → Bytes → Bytes)
    (fun _ acc => acc)
    (fun _ ih u acc =>
      let u2 := prf.run pass u
      ih u2 (xorBytes acc u2))
    fuel

/-- Modelled from the spec: block T_i of PBKDF2 (§4.2 step 3):
    U_1 = PRF(password, salt || INT(i)) and then `iterations - 1` further
    chained PRF applications XOR-accumulated onto U_1. -/
def pbkdf2Block (prf : PRF) (pass salt : Bytes) (iterations i : Nat) : Bytes :=
  let u1 := prf.run pass (salt ++ int32be i)
  blockIter prf pass (iterations - 1) u1 u1

/-- Modelled from the spec: the PBKDF2 engine core (§4.2 steps 2-4),
    standing in for the library routine `PKCS5_PBKDF2_HMAC` invoked by
    `kdf_pbkdf2_hmac` but absent from src/: compute
    l = ceil(len / hLen) blocks with 1-based 32-bit indices, concatenate
    T_1 || ... || T_l and truncate to exactly `len` bytes. -/
def pbkdf2 (prf : PRF) (pass salt : Bytes) (iterations len : Nat) : Bytes :=
  (((List.range ((len + prf.hLen - 1) / prf.hLen)).map
      (fun k => pbkdf2Block prf pass salt iterations (k + 1))).flatten).take len

/-- Modelled from the spec: the engine entry with request validation (§4.2
    step 1, §7), generic over the PRF capability: `iterations < 1` or a
    negative requested length is rejected with `InvalidParameter` before any
    PRF work; a block count above the 32-bit counter ceiling 2^32 - 1 is
    rejected with `OutputTooLarge`; otherwise the PBKDF2 core runs. -/
def deriveKeyWith (prf : PRF) (pass salt : Bytes) (iterations outputLength : Int) :
    Except KDFError Bytes :=
  if iterations < 1 ∨ outputLength < 0 then .error .invalidParameter
  else if 2 ^ 32 - 1 < (outputLength.toNat + prf.hLen - 1) / prf.hLen then
    .error .outputTooLarge
  else .ok (pbkdf2 prf pass salt iterations.toNat outputLength.toNat)

/-- Modelled from the spec: the public operation `deriveKey` (§6) — validate
    the request, resolve the hash identifier to a PRF capability
    (`UnsupportedHashAlgorithm` when resolution fails, propagated unchanged
    from the adapter), and run the engine. -/
def deriveKey (pass salt : Bytes) (iterations outputLength : Int) (hash : String) :
    Except KDFError Bytes :=
  if iterations < 1 ∨ outputLength < 0 then .error .invalidParameter
  else
    match resolvePRF hash with
    | none => .error .unsupportedHashAlgorithm
    | some prf => deriveKeyWith prf pass salt iterations outputLength

/-- ASCII bytes of a string, for stating the published test vectors. -/
def strBytes (s : String) : Bytes := s.data.map Char.toNat

/-- The chain U_1, U_2, ..., U_n of §4.2 steps 3b-3c, stated the way the
    spec words it: given U_1, each later element is PRF(password, previous).
    `uChain prf pass u1 n` is the list [U_1, ..., U_n]. -/
def uChain (prf : PRF) (pass u1 : Bytes) : Nat → List Bytes
  | 0 => []
  | n + 1 => u1 :: uChain prf pass (prf.run pass u1) n

/-- Block T_i as the spec words it (§4.2 step 3d): the XOR-fold
    U_1 XOR U_2 XOR ... XOR U_iterations of the chain started from
    U_1 = PRF(password, salt || INT(i)). -/
def rfcBlock (prf : PRF) (pass salt : Bytes) (iterations i : Nat) : Bytes :=
  match uChain prf pass (prf.run pass (salt ++ int32be i)) iterations with
  | [] => []
  | u :: us => us.foldl xorBytes u

/-- The derived key as the spec words it (§4.2 steps 2 and 4): the
    concatenation T_1 || ... || T_l of the ceil(len / hLen) spec blocks,
    truncated to exactly `len` bytes. -/
def rfcDerived (prf : PRF) (pass salt : Bytes) (iterations len : Nat) : Bytes :=
  (((List.range ((len + prf.hLen - 1) / prf.hLen)).map
      (fun k => rfcBlock prf pass salt iterations (k + 1))).flatten).take len

/-- The 20-byte output mask, 2^160 - 1. -/
def m160 : Nat := 0xffffffffffffffffffffffffffffffffffffffff

/-- The single non-key 512-bit block of a SHA-1 hash of a 64 + 20 byte
    message (a key block followed by a 20-byte value `m`): the value, the
    0x80 padding byte, 35 zero bytes and the 64-bit bit length 672.
    `sha1P_two_blocks` proves that hashing such a message is one
    compression of the key block followed by one compression of this
    block. -/
def msgBlock (m : Nat) : Nat :=
  Nat.add (Nat.shiftLeft (Nat.add (Nat.mul m 256) 128) 344) 672

/-- HMAC-SHA1 over 20-byte values in precomputed-key form: `ist` and `ost`
    are the chaining states after compressing the ipad- and opad-masked key
    block, so one HMAC costs two compressions.  `hmac_fixed_key` proves it
    agrees with `hmacSha1` for the RFC 6070 key. -/
def hmacP (ist ost m : Nat) : Nat :=
  sha1compress ost (msgBlock (sha1compress ist (msgBlock m)))

/-- One step of the packed PBKDF2 inner loop: the state `s` holds the
    current U in the high 160 bits and the XOR accumulator in the low 160
    bits; the step applies the PRF to U and XORs the result into the
    accumulator. -/
def chainStep (ist ost s : Nat) : Nat :=
  let u2 := hmacP ist ost (Nat.shiftRight s 160)
  Nat.add (Nat.shiftLeft u2 160) (Nat.xor (Nat.land s m160) u2)

/-- The packed PBKDF2 inner loop: `fuel` steps of `chainStep` from the
    packed state `s`.  Each step passes the new state through a branch
    whose two arms are identical, which makes reduction compute it eagerly
    while the recursion is still shallow; `blockIter_chainP` relates it to
    `blockIter`. -/
def chainP (ist ost : Nat) (fuel : Nat) : Nat → Nat :=
  @Nat.rec (fun _ => Nat → Nat)
    (fun s => s)
    (fun _ ih s =>
      let s2 := chainStep ist ost s
      if s2 = 0 then ih s2 else ih s2)
    fuel

/-- The RFC 6070 long-vector password "passwordPASSWORDpassword" as bytes. -/
def p3pass : Bytes :=
  [112, 97, 115, 115, 119, 111, 114, 100, 80, 65, 83, 83, 87, 79, 82, 68,
   112, 97, 115, 115, 119, 111, 114, 100]

/-- That password zero-padded to the 64-byte HMAC block and XORed with the
    inner padding (`hmac_fixed_key` checks this against `hmacSha1`). -/
def kIpad3 : Nat :=
  0x46574545415944526677656561796472465745454159445236363636363636363636363636363636363636363636363636363636363636363636363636363636

/-- That password zero-padded to the 64-byte HMAC block and XORed with the
    outer padding. -/
def kOpad3 : Nat :=
  0x2c3d2f2f2b332e380c1d0f0f0b130e182c3d2f2f2b332e385c5c5c5c5c5c5c5c5c5c5c5c5c5c5c5c5c5c5c5c5c5c5c5c5c5c5c5c5c5c5c5c5c5c5c5c5c5c5c5c

/-- The SHA-1 chaining state after compressing the ipad-masked key block. -/
def iState3 : Nat := 0xd73d52e487bcc0892a617e31b0946ab77f2ea0f1

/-- The SHA-1 chaining state after compressing the opad-masked key block. -/
def oState3 : Nat := 0x930d61f2590bd3cb8b4fa7de8bcdf8e5e424395a

/-- Running zero inner-loop steps returns the accumulator unchanged. -/
theorem blockIter_zero (prf : PRF) (pass u acc : Bytes) :
    blockIter prf pass 0 u acc = acc := rfl

/-- One inner-loop step: apply the PRF to the current U and XOR the result
    into the accumulator. -/
theorem blockIter_succ (prf : PRF) (pass : Bytes) (n : Nat) (u acc : Bytes) :
    blockIter prf pass (n + 1) u acc =
      blockIter prf pass n (prf.run pass u) (xorBytes acc (prf.run pass u)) := rfl

/-- Zero steps of the packed loop return the state unchanged. -/
theorem chainP_zero (ist ost s : Nat) : chainP ist ost 0 s = s := rfl

/-- Unfolding of one step of the packed loop, with its scrutinising branch. -/
theorem chainP_succ (ist ost : Nat) (n s : Nat) :
    chainP ist ost (n + 1) s =
      (if chainStep ist ost s = 0 then chainP ist ost n (chainStep ist ost s)
       else chainP ist ost n (chainStep ist ost s)) := rfl

/-- One step of the packed loop is `chainStep` (the branch arms are
    identical). -/
theorem chainP_step (ist ost : Nat) (n s : Nat) :
    chainP ist ost (n + 1) s = chainP ist ost n (chainStep ist ost s) := by
  rw [chainP_succ, ite_self]

/-- The packed loop splits into a first section of `m` steps followed by
    the remaining `n` steps. -/
theorem chainP_split (ist ost : Nat) (m n N : Nat) (hN : N = m + n) (s : Nat) :
    chainP ist ost N s = chainP ist ost n (chainP ist ost m s) := by
  subst hN
  induction m generalizing s with
  | zero => rw [Nat.zero_add, chainP_zero]
  | succ m ih => rw [Nat.succ_add, chainP_step, ih, chainP_step]

/-- A big-endian byte decomposition has exactly the requested length. -/
theorem bytesOfNat_length (k : Nat) : ∀ n : Nat, (bytesOfNat k n).length = k := by
  induction k with
  | zero => intro n; rfl
  | succ k ih => intro n; simp [bytesOfNat, ih]

/-- The radix-256 fold over a byte list, started from an arbitrary
    accumulator. -/
theorem natOfBytes_foldl (bs : Bytes) : ∀ acc : Nat,
    List.foldl (fun a b => Nat.add (Nat.mul a 256) b) acc bs =
      acc * 256 ^ bs.length + natOfBytes bs := by
  induction bs with
  | nil => intro acc; simp [natOfBytes]
  | cons b bs ih =>
    intro acc
    show List.foldl _ (Nat.add (Nat.mul acc 256) b) bs = _
    rw [ih]
    have hb : natOfBytes (b :: bs) = b * 256 ^ bs.length + natOfBytes bs := by
      show List.foldl _ (Nat.add (Nat.mul 0 256) b) bs = _
      rw [ih]
      simp [Nat.mul_eq, Nat.add_eq]
    rw [hb]
    simp only [Nat.mul_eq, Nat.add_eq, List.length_cons]
    ring

/-- Prepending a byte to the radix-256 value. -/
theorem natOfBytes_cons (b : Nat) (bs : Bytes) :
    natOfBytes (b :: bs) = b * 256 ^ bs.length + natOfBytes bs := by
  show List.foldl _ (Nat.add (Nat.mul 0 256) b) bs = _
  rw [natOfBytes_foldl]
  simp [Nat.mul_eq, Nat.add_eq]

/-- Xor commutes with division by a power of two. -/
theorem xor_div_pow (s : Nat) : ∀ x y : Nat, (x ^^^ y) / 2 ^ s = x / 2 ^ s ^^^ y / 2 ^ s := by
  induction s with
  | zero => intro x y; simp
  | succ s ih =>
    intro x y
    rw [Nat.pow_succ, ← Nat.div_div_eq_div_mul, ← Nat.div_div_eq_div_mul,
      ← Nat.div_div_eq_div_mul, ih, Nat.xor_div_two]

/-- Xor commutes with right shifts. -/
theorem xor_shiftRight (x y s : Nat) :
    Nat.shiftRight (x ^^^ y) s = Nat.shiftRight x s ^^^ Nat.shiftRight y s := by
  show (x ^^^ y) >>> s = x >>> s ^^^ y >>> s
  rw [Nat.shiftRight_eq_div_pow, Nat.shiftRight_eq_div_pow, Nat.shiftRight_eq_div_pow,
    xor_div_pow]

/-- The radix-256 value of a `k`-byte decomposition is the value modulo
    2^(8k). -/
theorem natOfBytes_bytesOfNat (k : Nat) : ∀ n : Nat,
    natOfBytes (bytesOfNat k n) = n % 2 ^ (8 * k) := by
  induction k with
  | zero =>
    intro n
    show (0 : Nat) = n % 2 ^ (8 * 0)
    rw [Nat.mul_zero, Nat.pow_zero, Nat.mod_one]
  | succ k ih =>
    intro n
    show natOfBytes (Nat.land (Nat.shiftRight n (Nat.mul 8 k)) 255 :: bytesOfNat k n) = _
    rw [natOfBytes_cons, bytesOfNat_length, ih]
    have h255 : Nat.land (Nat.shiftRight n (Nat.mul 8 k)) 255 = n / 2 ^ (8 * k) % 2 ^ 8 := by
      have hshr : Nat.shiftRight n (Nat.mul 8 k) = n / 2 ^ (8 * k) := by
        show n >>> (8 * k) = _
        rw [Nat.shiftRight_eq_div_pow]
      show n.shiftRight (Nat.mul 8 k) &&& 255 = _
      rw [hshr, show (255 : Nat) = 2 ^ 8 - 1 from by norm_num,
        Nat.and_pow_two_sub_one_eq_mod]
    rw [h255]
    have h256 : (256 : Nat) ^ k = 2 ^ (8 * k) := by
      rw [show (256 : Nat) = 2 ^ 8 from by norm_num, ← Nat.pow_mul]
    rw [h256]
    have hmul : 2 ^ (8 * (k + 1)) = 2 ^ (8 * k) * 2 ^ 8 := by
      rw [← Nat.pow_add]; ring_nf
    rw [hmul, Nat.mod_mul]
    have hpos : 0 < 2 ^ (8 * k) := Nat.pos_pow_of_pos _ (by norm_num)
    ring

/-- Lane-wise XOR of two `k`-byte decompositions is the decomposition of
    the packed XOR. -/
theorem xorBytes_bytesOfNat (k : Nat) : ∀ x y : Nat,
    xorBytes (bytesOfNat k x) (bytesOfNat k y) = bytesOfNat k (Nat.xor x y) := by
  induction k with
  | zero => intro x y; rfl
  | succ k ih =>
    intro x y
    show List.zipWith _ (_ :: bytesOfNat k x) (_ :: bytesOfNat k y) = _
    simp only [List.zipWith]
    have hx : xorBytes (bytesOfNat k x) (bytesOfNat k y) = bytesOfNat k (Nat.xor x y) := ih x y
    show (Nat.land (Nat.shiftRight x (Nat.mul 8 k)) 255 ^^^
          Nat.land (Nat.shiftRight y (Nat.mul 8 k)) 255) :: xorBytes (bytesOfNat k x) (bytesOfNat k y) = _
    rw [hx]
    show _ = Nat.land (Nat.shiftRight (Nat.xor x y) (Nat.mul 8 k)) 255 :: bytesOfNat k (Nat.xor x y)
    congr 1
    show Nat.shiftRight x (Nat.mul 8 k) &&& 255 ^^^ Nat.shiftRight y (Nat.mul 8 k) &&& 255 =
      Nat.shiftRight (x ^^^ y) (Nat.mul 8 k) &&& 255
    rw [xor_shiftRight, Nat.and_xor_distrib_right]

/-- The phase runner at zero fuel is its continuation. -/
theorem sha1phase_zero (K : Nat) (f : Nat → Nat → Nat → Nat) (k : Sha1Cont) :
    sha1phase K f k 0 = k := rfl

/-- Unfolding of one round of a phase. -/
theorem sha1phase_succ (K : Nat) (f : Nat → Nat → Nat → Nat) (k : Sha1Cont) (n : Nat)
    (w1 w2 w3 w4 w5 w6 w7 w8 w9 w10 w11 w12 w13 w14 w15 w16 a b c d e : Nat) :
    sha1phase K f k (n + 1) w1 w2 w3 w4 w5 w6 w7 w8 w9 w10 w11 w12 w13 w14 w15 w16 a b c d e =
      sha1phase K f k n w2 w3 w4 w5 w6 w7 w8 w9 w10 w11 w12 w13 w14 w15 w16
        (rotl1 (Nat.xor (Nat.xor w14 w9) (Nat.xor w3 w1)))
        (Nat.mod (Nat.add (Nat.add (Nat.add (Nat.add (rotl5 a) (f b c d)) e)
          (rotl1 (Nat.xor (Nat.xor w14 w9) (Nat.xor w3 w1)))) K) 4294967296)
        a (rotl30 b) c d := rfl

/-- The load runner at zero fuel is its continuation. -/
theorem sha1load_zero (k : Sha1Cont) (blk : Nat) : sha1load k 0 blk = k := rfl

/-- Unfolding of one load round. -/
theorem sha1load_succ (k : Sha1Cont) (n : Nat) (blk : Nat)
    (w1 w2 w3 w4 w5 w6 w7 w8 w9 w10 w11 w12 w13 w14 w15 w16 a b c d e : Nat) :
    sha1load k (n + 1) blk w1 w2 w3 w4 w5 w6 w7 w8 w9 w10 w11 w12 w13 w14 w15 w16 a b c d e =
      sha1load k n (Nat.mod (Nat.shiftLeft blk 32) p512)
        w2 w3 w4 w5 w6 w7 w8 w9 w10 w11 w12 w13 w14 w15 w16 (Nat.shiftRight blk 480)
        (Nat.mod (Nat.add (Nat.add (Nat.add (Nat.add (rotl5 a) (sha1ch b c d)) e)
          (Nat.shiftRight blk 480)) 0x5A827999) 4294967296)
        a (rotl30 b) c d := rfl

/-- A shifted 32-bit residue stays under the 160-bit bound. -/
theorem shl_mod_lt (x s : Nat) (hs : s + 32 ≤ 160) :
    Nat.shiftLeft (Nat.mod x 4294967296) s < 2 ^ 160 := by
  show (x % 4294967296) <<< s < 2 ^ 160
  rw [Nat.shiftLeft_eq]
  calc x % 4294967296 * 2 ^ s < 4294967296 * 2 ^ s :=
        (Nat.mul_lt_mul_right (Nat.pos_pow_of_pos _ (by norm_num))).mpr
          (Nat.mod_lt _ (by norm_num))
    _ = 2 ^ (32 + s) := by rw [Nat.pow_add]
    _ ≤ 2 ^ 160 := Nat.pow_le_pow_right (by norm_num) (by omega)

/-- The final packing of the five added state words is a 160-bit value. -/
theorem sha1fin_lt (a b c d e : Nat) : ∀ x1 x2 x3 x4 x5 x6 x7 x8 x9 x10 x11 x12 x13 x14 x15 x16 x17 x18 x19 x20 x21, sha1fin a b c d e x1 x2 x3 x4 x5 x6 x7 x8 x9 x10 x11 x12 x13 x14 x15 x16 x17 x18 x19 x20 x21 < 2 ^ 160 := by
  intro x1 x2 x3 x4 x5 x6 x7 x8 x9 x10 x11 x12 x13 x14 x15 x16 x17 x18 x19 x20 x21
  show Nat.lor _ (Nat.lor _ (Nat.lor _ (Nat.lor _ _))) < 2 ^ 160
  apply Nat.or_lt_two_pow (shl_mod_lt _ _ (by norm_num))
  apply Nat.or_lt_two_pow (shl_mod_lt _ _ (by norm_num))
  apply Nat.or_lt_two_pow (shl_mod_lt _ _ (by norm_num))
  apply Nat.or_lt_two_pow (shl_mod_lt _ _ (by norm_num))
  show Nat.mod _ 4294967296 < 2 ^ 160
  calc Nat.mod _ 4294967296 < 4294967296 := Nat.mod_lt _ (by norm_num)
    _ ≤ 2 ^ 160 := by norm_num

/-- Every phase preserves boundedness of the continuation result. -/
theorem sha1phase_lt (K : Nat) (f : Nat → Nat → Nat → Nat) (k : Sha1Cont) (fuel : Nat)
    (hk : ∀ x1 x2 x3 x4 x5 x6 x7 x8 x9 x10 x11 x12 x13 x14 x15 x16 x17 x18 x19 x20 x21, k x1 x2 x3 x4 x5 x6 x7 x8 x9 x10 x11 x12 x13 x14 x15 x16 x17 x18 x19 x20 x21 < 2 ^ 160) :
    ∀ x1 x2 x3 x4 x5 x6 x7 x8 x9 x10 x11 x12 x13 x14 x15 x16 x17 x18 x19 x20 x21, sha1phase K f k fuel x1 x2 x3 x4 x5 x6 x7 x8 x9 x10 x11 x12 x13 x14 x15 x16 x17 x18 x19 x20 x21 < 2 ^ 160 := by
  induction fuel with
  | zero => exact hk
  | succ n ih =>
    intro x1 x2 x3 x4 x5 x6 x7 x8 x9 x10 x11 x12 x13 x14 x15 x16 x17 x18 x19 x20 x21
    rw [sha1phase_succ]
    apply ih

/-- The load rounds preserve boundedness of the continuation result. -/
theorem sha1load_lt (k : Sha1Cont) (fuel : Nat)
    (hk : ∀ x1 x2 x3 x4 x5 x6 x7 x8 x9 x10 x11 x12 x13 x14 x15 x16 x17 x18 x19 x20 x21, k x1 x2 x3 x4 x5 x6 x7 x8 x9 x10 x11 x12 x13 x14 x15 x16 x17 x18 x19 x20 x21 < 2 ^ 160) :
    ∀ (blk : Nat) x1 x2 x3 x4 x5 x6 x7 x8 x9 x10 x11 x12 x13 x14 x15 x16 x17 x18 x19 x20 x21, sha1load k fuel blk x1 x2 x3 x4 x5 x6 x7 x8 x9 x10 x11 x12 x13 x14 x15 x16 x17 x18 x19 x20 x21 < 2 ^ 160 := by
  induction fuel with
  | zero => intro blk; exact hk
  | succ n ih =>
    intro blk x1 x2 x3 x4 x5 x6 x7 x8 x9 x10 x11 x12 x13 x14 x15 x16 x17 x18 x19 x20 x21
    rw [sha1load_succ]
    apply ih

/-- The compression function returns a 160-bit value. -/
theorem sha1compress_lt (state blk : Nat) : sha1compress state blk < 2 ^ 160 := by
  have h1 := sha1fin_lt (Nat.land (Nat.shiftRight state 128) 4294967295)
    (Nat.land (Nat.shiftRight state 96) 4294967295)
    (Nat.land (Nat.shiftRight state 64) 4294967295)
    (Nat.land (Nat.shiftRight state 32) 4294967295)
    (Nat.land state 4294967295)
  have h2 := sha1phase_lt 3395469782 sha1parity _ 20 h1
  have h3 := sha1phase_lt 2400959708 sha1maj _ 20 h2
  have h4 := sha1phase_lt 1859775393 sha1parity _ 20 h3
  have h5 := sha1phase_lt 1518500249 sha1ch _ 4 h4
  have h6 := sha1load_lt _ 16 h5 blk
  exact h6 0 0 0 0 0 0 0 0 0 0 0 0 0 0 0 0
    (Nat.land (Nat.shiftRight state 128) 4294967295)
    (Nat.land (Nat.shiftRight state 96) 4294967295)
    (Nat.land (Nat.shiftRight state 64) 4294967295)
    (Nat.land (Nat.shiftRight state 32) 4294967295)
    (Nat.land state 4294967295)

/-- The precomputed-key HMAC returns a 160-bit value. -/
theorem hmacP_lt (ist ost m : Nat) : hmacP ist ost m < 2 ^ 160 :=
  sha1compress_lt _ _

/-- Validation of the packed SHA-1 against the RFC 3174 test vector for
    the message "abc". -/
theorem sha1_abc :
    sha1 (strBytes ("abc")) =
      [0xa9, 0x99, 0x3e, 0x36, 0x47, 0x06, 0x81, 0x6a, 0xba, 0x3e,
       0x25, 0x71, 0x78, 0x50, 0xc2, 0x6c, 0x9c, 0xd0, 0xd8, 0x9d] := by
  decide

/-- Validation of the HMAC-SHA1 adapter against RFC 2202 test case 2
    (key "Jefe", data "what do ya want for nothing?"). -/
theorem hmacSha1_rfc2202_case2 :
    hmacSha1 (strBytes ("Jefe")) (strBytes ("what do ya want for nothing?")) =
      [0xef, 0xfc, 0xdf, 0x6a, 0xe5, 0xeb, 0x2f, 0xa2, 0xd2, 0x74,
       0x16, 0xd5, 0xf1, 0x84, 0xdf, 0x9c, 0x25, 0x9a, 0x7c, 0x79] := by
  decide

/-- The block-width constant `p512` is 2^512. -/
theorem p512_eq : p512 = 2 ^ 512 := by norm_num [p512]

/-- The output mask `m160` is 2^160 - 1. -/
theorem m160_eq : m160 = 2 ^ 160 - 1 := by norm_num [m160]

/-- Hashing a two-block padded message is two compressions, earliest
    (highest) block first. -/
theorem sha1blocksGo_two (padded st : Nat) :
    sha1blocksGo padded 2 st =
      sha1compress (sha1compress st (Nat.mod (Nat.shiftRight padded 512) p512))
        (Nat.mod padded p512) := rfl

/-- A value below 2^160 makes `msgBlock` a proper 512-bit block. -/
theorem msgBlock_lt (m : Nat) (hm : m < 2 ^ 160) : msgBlock m < 2 ^ 512 := by
  show (m * 256 + 128) <<< 344 + 672 < 2 ^ 512
  rw [Nat.shiftLeft_eq]
  have h672 : (672 : Nat) < 2 ^ 344 := by norm_num
  have hm2 : m * 256 + 129 ≤ 2 ^ 168 := by
    have e1 : (2 : Nat) ^ 160 = 1461501637330902918203684832716283019655932542976 := by
      norm_num
    have e2 : (2 : Nat) ^ 168 = 374144419156711147060143317175368453031918731001856 := by
      norm_num
    omega
  calc (m * 256 + 128) * 2 ^ 344 + 672
      < (m * 256 + 128) * 2 ^ 344 + 2 ^ 344 := by omega
    _ = (m * 256 + 129) * 2 ^ 344 := by ring
    _ ≤ 2 ^ 168 * 2 ^ 344 := mul_le_mul_right' hm2 (2 ^ 344)
    _ = 2 ^ 512 := by rw [← Nat.pow_add]

/-- The high 160-bit lane of a packed (U, accumulator) state. -/
theorem shr_shl_add (u a : Nat) (ha : a < 2 ^ 160) :
    Nat.shiftRight (Nat.add (Nat.shiftLeft u 160) a) 160 = u := by
  show (u <<< 160 + a) >>> 160 = u
  rw [Nat.shiftLeft_eq, Nat.shiftRight_eq_div_pow, Nat.add_comm, Nat.mul_comm,
    Nat.add_mul_div_left _ _ (Nat.pos_pow_of_pos 160 (by norm_num)),
    Nat.div_eq_of_lt ha, Nat.zero_add]

/-- The low 160-bit lane of a packed (U, accumulator) state. -/
theorem land_shl_add (u a : Nat) (ha : a < 2 ^ 160) :
    Nat.land (Nat.add (Nat.shiftLeft u 160) a) m160 = a := by
  show (u <<< 160 + a) &&& m160 = a
  rw [m160_eq, Nat.and_pow_two_sub_one_eq_mod, Nat.shiftLeft_eq, Nat.add_comm, Nat.mul_comm,
    Nat.add_mul_mod_self_left, Nat.mod_eq_of_lt ha]

/-- An 84-byte message packed as a 64-byte key block `K` over a 20-byte
    value `m` hashes as two compressions: the key block, then `msgBlock m`. -/
theorem sha1P_two_blocks (K m : Nat) (hK : K < 2 ^ 512) (hm : m < 2 ^ 160) :
    sha1P 84 (Nat.add (Nat.shiftLeft K 160) m) =
      sha1compress (sha1compress 0x67452301EFCDAB8998BADCFE10325476C3D2E1F0 K)
        (msgBlock m) := by
  have hmsg : msgBlock m < 2 ^ 512 := msgBlock_lt m hm
  have hP : sha1P 84 (Nat.add (Nat.shiftLeft K 160) m) =
      sha1blocksGo
        (Nat.add (Nat.shiftLeft
          (Nat.add (Nat.mul (Nat.add (Nat.shiftLeft K 160) m) 256) 128) 344) 672)
        2 0x67452301EFCDAB8998BADCFE10325476C3D2E1F0 := rfl
  rw [hP, sha1blocksGo_two, p512_eq]
  have hpad : Nat.add (Nat.shiftLeft
      (Nat.add (Nat.mul (Nat.add (Nat.shiftLeft K 160) m) 256) 128) 344) 672
      = msgBlock m + 2 ^ 512 * K := by
    show ((K <<< 160 + m) * 256 + 128) <<< 344 + 672 =
      (m * 256 + 128) <<< 344 + 672 + 2 ^ 512 * K
    rw [Nat.shiftLeft_eq, Nat.shiftLeft_eq, Nat.shiftLeft_eq]
    ring
  rw [hpad]
  have h1 : Nat.shiftRight (msgBlock m + 2 ^ 512 * K) 512 = K := by
    show (msgBlock m + 2 ^ 512 * K) >>> 512 = K
    rw [Nat.shiftRight_eq_div_pow,
      Nat.add_mul_div_left _ _ (Nat.pos_pow_of_pos 512 (by norm_num)),
      Nat.div_eq_of_lt hmsg, Nat.zero_add]
  have h2 : Nat.mod (msgBlock m + 2 ^ 512 * K) (2 ^ 512) = msgBlock m := by
    show (msgBlock m + 2 ^ 512 * K) % 2 ^ 512 = msgBlock m
    rw [Nat.add_mul_mod_self_left, Nat.mod_eq_of_lt hmsg]
  have h3 : Nat.mod K (2 ^ 512) = K := Nat.mod_eq_of_lt hK
  rw [h1, h2, h3]

/-- The ipad-masked RFC 6070 long-vector key block is a 512-bit value. -/
theorem kIpad3_lt : kIpad3 < 2 ^ 512 := by norm_num [kIpad3]

/-- The opad-masked RFC 6070 long-vector key block is a 512-bit value. -/
theorem kOpad3_lt : kOpad3 < 2 ^ 512 := by norm_num [kOpad3]

/-- The precomputed inner chaining state is the compression of the
    ipad-masked key block. -/
theorem iState3_eq :
    sha1compress 0x67452301EFCDAB8998BADCFE10325476C3D2E1F0 kIpad3 = iState3 := by
  decide

/-- The precomputed outer chaining state is the compression of the
    opad-masked key block. -/
theorem oState3_eq :
    sha1compress 0x67452301EFCDAB8998BADCFE10325476C3D2E1F0 kOpad3 = oState3 := by
  decide

/-- For the RFC 6070 long-vector password and a 20-byte message,
    `hmacSha1` agrees with the two-compression precomputed-key form. -/
theorem hmac_fixed_key (m : Nat) (hm : m < 2 ^ 160) :
    hmacSha1 p3pass (bytesOfNat 20 m) = bytesOfNat 20 (hmacP iState3 oState3 m) := by
  have hL : (bytesOfNat 20 m).length = 20 := bytesOfNat_length 20 m
  have hN : natOfBytes (bytesOfNat 20 m) = m := by
    have e : (8 : Nat) * 20 = 160 := by norm_num
    rw [natOfBytes_bytesOfNat, e]
    exact Nat.mod_eq_of_lt hm
  show bytesOfNat 20
      (sha1P 84
        (Nat.add (Nat.shiftLeft kOpad3 160)
          (sha1P (64 + (bytesOfNat 20 m).length)
            (Nat.add (Nat.shiftLeft kIpad3 (8 * (bytesOfNat 20 m).length))
              (natOfBytes (bytesOfNat 20 m)))))) =
    bytesOfNat 20 (hmacP iState3 oState3 m)
  rw [hL, hN]
  have e84 : (64 : Nat) + 20 = 84 := by norm_num
  have e160 : (8 : Nat) * 20 = 160 := by norm_num
  rw [e84, e160]
  rw [sha1P_two_blocks kIpad3 m kIpad3_lt hm]
  rw [iState3_eq]
  rw [sha1P_two_blocks kOpad3 _ kOpad3_lt (sha1compress_lt _ _)]
  rw [oState3_eq]
  rfl

/-- The byte-level inner loop agrees with the packed loop for the RFC 6070
    long-vector password: after `n` steps from a 20-byte U and a 20-byte
    accumulator, the accumulator is the low lane of the packed state. -/
theorem blockIter_chainP (n : Nat) : ∀ u acc : Nat, u < 2 ^ 160 → acc < 2 ^ 160 →
    blockIter hmacSHA1prf p3pass n (bytesOfNat 20 u) (bytesOfNat 20 acc) =
      bytesOfNat 20
        (Nat.land (chainP iState3 oState3 n (Nat.add (Nat.shiftLeft u 160) acc)) m160) := by
  induction n with
  | zero =>
    intro u acc hu hacc
    rw [blockIter_zero, chainP_zero, land_shl_add u acc hacc]
  | succ n ih =>
    intro u acc hu hacc
    rw [blockIter_succ]
    have hrun : hmacSHA1prf.run p3pass (bytesOfNat 20 u) =
        bytesOfNat 20 (hmacP iState3 oState3 u) := hmac_fixed_key u hu
    rw [hrun]
    rw [xorBytes_bytesOfNat]
    rw [chainP_step]
    have hstep : chainStep iState3 oState3 (Nat.add (Nat.shiftLeft u 160) acc) =
        Nat.add (Nat.shiftLeft (hmacP iState3 oState3 u) 160)
          (Nat.xor acc (hmacP iState3 oState3 u)) := by
      show Nat.add
          (Nat.shiftLeft
            (hmacP iState3 oState3
              (Nat.shiftRight (Nat.add (Nat.shiftLeft u 160) acc) 160)) 160)
          (Nat.xor (Nat.land (Nat.add (Nat.shiftLeft u 160) acc) m160)
            (hmacP iState3 oState3
              (Nat.shiftRight (Nat.add (Nat.shiftLeft u 160) acc) 160))) = _
      rw [shr_shl_add u acc hacc, land_shl_add u acc hacc]
    rw [hstep]
    exact ih (hmacP iState3 oState3 u) (Nat.xor acc (hmacP iState3 oState3 u))
      (hmacP_lt _ _ _) (Nat.xor_lt_two_pow hacc (hmacP_lt _ _ _))

set_option maxHeartbeats 400000000

/-- Checkpoint 1 of the packed inner loop for RFC 6070 vector 3,
    block 1: 512 further steps of the 4095-step chain. -/
theorem c1chainA1 :
    chainP iState3 oState3 512
      1215655787128746811655002062365003280426147811946446726771821040220645152711775514831476499538619 =
      1754572274719353036350559342011800048973387571589610155940754739012804119273390921384145852823933 := by
  decide!

/-- Checkpoint 2 of the packed inner loop for RFC 6070 vector 3,
    block 1: 512 further steps of the 4095-step chain. -/
theorem c1chainA2 :
    chainP iState3 oState3 512
      1754572274719353036350559342011800048973387571589610155940754739012804119273390921384145852823933 =
      1227672305016353395069909849064058285456427686915330396679188142483859782555026383103175889729780 := by
  decide!

/-- Checkpoint 3 of the packed inner loop for RFC 6070 vector 3,
    block 1: 512 further steps of the 4095-step chain. -/
theorem c1chainA3 :
    chainP iState3 oState3 512
      1227672305016353395069909849064058285456427686915330396679188142483859782555026383103175889729780 =
      1068167819043070534396419535255969976908827390464238079182821566012033295978416272833363570009124 := by
  decide!

/-- Checkpoint 4 of the packed inner loop for RFC 6070 vector 3,
    block 1: 512 further steps of the 4095-step chain. -/
theorem c1chainA4 :
    chainP iState3 oState3 512
      1068167819043070534396419535255969976908827390464238079182821566012033295978416272833363570009124 =
      668392504463841520663724502063176173870843501838403060908580907920051963083324277110936257887759 := by
  decide!

/-- Checkpoint 5 of the packed inner loop for RFC 6070 vector 3,
    block 1: 512 further steps of the 4095-step chain. -/
theorem c1chainA5 :
    chainP iState3 oState3 512
      668392504463841520663724502063176173870843501838403060908580907920051963083324277110936257887759 =
      437753497617773140728554198325141295560431460659480117729969690055808595348659686952179557442703 := by
  decide!

/-- Checkpoint 6 of the packed inner loop for RFC 6070 vector 3,
    block 1: 512 further steps of the 4095-step chain. -/
theorem c1chainA6 :
    chainP iState3 oState3 512
      437753497617773140728554198325141295560431460659480117729969690055808595348659686952179557442703 =
      1881313870617224199920176107948635107584541016008178248271632093629490622729488805783072402949680 := by
  decide!

/-- Checkpoint 7 of the packed inner loop for RFC 6070 vector 3,
    block 1: 512 further steps of the 4095-step chain. -/
theorem c1chainA7 :
    chainP iState3 oState3 512
      1881313870617224199920176107948635107584541016008178248271632093629490622729488805783072402949680 =
      1936540937620181823993683200337299843328706347064422536381989945085037623888275173183002781665030 := by
  decide!

/-- Checkpoint 8 of the packed inner loop for RFC 6070 vector 3,
    block 1: 511 further steps of the 4095-step chain. -/
theorem c1chainA8 :
    chainP iState3 oState3 511
      1936540937620181823993683200337299843328706347064422536381989945085037623888275173183002781665030 =
      155153492713894179002434014843543199836912269872864316450656749247544985347328162485708482222742 := by
  decide!

/-- Checkpoint 1 of the packed inner loop for RFC 6070 vector 3,
    block 2: 512 further steps of the 4095-step chain. -/
theorem c1chainB1 :
    chainP iState3 oState3 512
      1746557990584283994521901320496549461780325334523016903462763305496417225821187254866967028690984 =
      2047786844126965403101637911656099923494262444669706808839296226616529711590470613270793393496051 := by
  decide!

/-- Checkpoint 2 of the packed inner loop for RFC 6070 vector 3,
    block 2: 512 further steps of the 4095-step chain. -/
theorem c1chainB2 :
    chainP iState3 oState3 512
      2047786844126965403101637911656099923494262444669706808839296226616529711590470613270793393496051 =
      138428667267471105247603159455216086569768421914257126327614099716662116213695946525109171197633 := by
  decide!

/-- Checkpoint 3 of the packed inner loop for RFC 6070 vector 3,
    block 2: 512 further steps of the 4095-step chain. -/
theorem c1chainB3 :
    chainP iState3 oState3 512
      138428667267471105247603159455216086569768421914257126327614099716662116213695946525109171197633 =
      960994188047350241988890523474955479418430671957616148778247003362469247391889759661134963896430 := by
  decide!

/-- Checkpoint 4 of the packed inner loop for RFC 6070 vector 3,
    block 2: 512 further steps of the 4095-step chain. -/
theorem c1chainB4 :
    chainP iState3 oState3 512
      960994188047350241988890523474955479418430671957616148778247003362469247391889759661134963896430 =
      106092747520173505271816366003395876935403503356070926313168498540333279430411581043059459419291 := by
  decide!

/-- Checkpoint 5 of the packed inner loop for RFC 6070 vector 3,
    block 2: 512 further steps of the 4095-step chain. -/
theorem c1chainB5 :
    chainP iState3 oState3 512
      106092747520173505271816366003395876935403503356070926313168498540333279430411581043059459419291 =
      1251196442643079453935214797845937512652585686133054781252311811407120309808061780376589756535879 := by
  decide!

/-- Checkpoint 6 of the packed inner loop for RFC 6070 vector 3,
    block 2: 512 further steps of the 4095-step chain. -/
theorem c1chainB6 :
    chainP iState3 oState3 512
      1251196442643079453935214797845937512652585686133054781252311811407120309808061780376589756535879 =
      1553873291559652754844271336943540826720293155216529118195918323572644337821867460475226172045638 := by
  decide!

/-- Checkpoint 7 of the packed inner loop for RFC 6070 vector 3,
    block 2: 512 further steps of the 4095-step chain. -/
theorem c1chainB7 :
    chainP iState3 oState3 512
      1553873291559652754844271336943540826720293155216529118195918323572644337821867460475226172045638 =
      1824819919023913415062870315098071958170700587917164683160704978772234754573874422261124745309790 := by
  decide!

/-- Checkpoint 8 of the packed inner loop for RFC 6070 vector 3,
    block 2: 511 further steps of the 4095-step chain. -/
theorem c1chainB8 :
    chainP iState3 oState3 511
      1824819919023913415062870315098071958170700587917164683160704978772234754573874422261124745309790 =
      1559173939087242235662758984829337227661513369483248596810756701458302480506325129815044730725161 := by
  decide!

/-- C1: For the RFC 6070 test vectors, the derivation returns exactly the
    published bytes: deriveKey(password="password", salt="salt",
    iterations=1, outputLength=20, hash=SHA1) is
    0x0c60c80f961f0e71f3a9b524af6012062fe037a6; with iterations=2 it is
    0xea6c014dc72d6f8ccd1ed92ace1d41f0d8de8957; and
    deriveKey(password="passwordPASSWORDpassword",
    salt="saltSALTsaltSALTsaltSALTsaltSALTsalt", iterations=4096,
    outputLength=25, hash=SHA1) is
    0x3d2eec4fe41c849b80c8d83662c0e44a8b291a964cf2f07038. -/
theorem rfc6070_test_vectors :
    deriveKey (strBytes ("password")) (strBytes ("salt")) 1 20 ("sha1") =
      .ok [0x0c, 0x60, 0xc8, 0x0f, 0x96, 0x1f, 0x0e, 0x71, 0xf3, 0xa9,
           0xb5, 0x24, 0xaf, 0x60, 0x12, 0x06, 0x2f, 0xe0, 0x37, 0xa6]
  ∧ deriveKey (strBytes ("password")) (strBytes ("salt")) 2 20 ("sha1") =
      .ok [0xea, 0x6c, 0x01, 0x4d, 0xc7, 0x2d, 0x6f, 0x8c, 0xcd, 0x1e,
           0xd9, 0x2a, 0xce, 0x1d, 0x41, 0xf0, 0xd8, 0xde, 0x89, 0x57]
  ∧ deriveKey (strBytes ("passwordPASSWORDpassword"))
      (strBytes ("saltSALTsaltSALTsaltSALTsaltSALTsalt")) 4096 25 ("sha1") =
      .ok [0x3d, 0x2e, 0xec, 0x4f, 0xe4, 0x1c, 0x84, 0x9b, 0x80, 0xc8,
           0xd8, 0x36, 0x62, 0xc0, 0xe4, 0x4a, 0x8b, 0x29, 0x1a, 0x96,
           0x4c, 0xf2, 0xf0, 0x70, 0x38] := by
  refine ⟨rfl, rfl, ?_⟩
  have hu1 : hmacSHA1prf.run p3pass (strBytes ("saltSALTsaltSALTsaltSALTsaltSALTsalt") ++ int32be (0 + 1)) =
      bytesOfNat 20 831785443189008608126802809429171487975079273147 := by decide
  have hu2 : hmacSHA1prf.run p3pass (strBytes ("saltSALTsaltSALTsaltSALTsaltSALTsalt") ++ int32be (1 + 1)) =
      bytesOfNat 20 1195043471708982165411790397829092007883657572392 := by decide
  have hB1 : pbkdf2Block hmacSHA1prf p3pass (strBytes ("saltSALTsaltSALTsaltSALTsaltSALTsalt")) 4096 (0 + 1) =
      [61, 46, 236, 79, 228, 28, 132, 155, 128, 200, 216, 54, 98, 192, 228, 74, 139, 41, 26, 150] := by
    show blockIter hmacSHA1prf p3pass 4095
        (hmacSHA1prf.run p3pass (strBytes ("saltSALTsaltSALTsaltSALTsaltSALTsalt") ++ int32be (0 + 1)))
        (hmacSHA1prf.run p3pass (strBytes ("saltSALTsaltSALTsaltSALTsaltSALTsalt") ++ int32be (0 + 1))) =
      [61, 46, 236, 79, 228, 28, 132, 155, 128, 200, 216, 54, 98, 192, 228, 74, 139, 41, 26, 150]
    rw [hu1]
    rw [blockIter_chainP 4095 _ _ (by norm_num) (by norm_num)]
    have hs0 : Nat.add (Nat.shiftLeft (831785443189008608126802809429171487975079273147 : Nat) 160)
        831785443189008608126802809429171487975079273147 =
        1215655787128746811655002062365003280426147811946446726771821040220645152711775514831476499538619 := by decide
    rw [hs0]
    rw [chainP_split iState3 oState3 512 3583 4095 (by norm_num)
      1215655787128746811655002062365003280426147811946446726771821040220645152711775514831476499538619,
      c1chainA1]
    rw [chainP_split iState3 oState3 512 3071 3583 (by norm_num)
      1754572274719353036350559342011800048973387571589610155940754739012804119273390921384145852823933,
      c1chainA2]
    rw [chainP_split iState3 oState3 512 2559 3071 (by norm_num)
      1227672305016353395069909849064058285456427686915330396679188142483859782555026383103175889729780,
      c1chainA3]
    rw [chainP_split iState3 oState3 512 2047 2559 (by norm_num)
      1068167819043070534396419535255969976908827390464238079182821566012033295978416272833363570009124,
      c1chainA4]
    rw [chainP_split iState3 oState3 512 1535 2047 (by norm_num)
      668392504463841520663724502063176173870843501838403060908580907920051963083324277110936257887759,
      c1chainA5]
    rw [chainP_split iState3 oState3 512 1023 1535 (by norm_num)
      437753497617773140728554198325141295560431460659480117729969690055808595348659686952179557442703,
      c1chainA6]
    rw [chainP_split iState3 oState3 512 511 1023 (by norm_num)
      1881313870617224199920176107948635107584541016008178248271632093629490622729488805783072402949680,
      c1chainA7]
    rw [c1chainA8]
    decide
  have hB2 : pbkdf2Block hmacSHA1prf p3pass (strBytes ("saltSALTsaltSALTsaltSALTsaltSALTsalt")) 4096 (1 + 1) =
      [76, 242, 240, 112, 56, 182, 184, 154, 72, 97, 44, 90, 37, 40, 78, 102, 5, 225, 35, 41] := by
    show blockIter hmacSHA1prf p3pass 4095
        (hmacSHA1prf.run p3pass (strBytes ("saltSALTsaltSALTsaltSALTsaltSALTsalt") ++ int32be (1 + 1)))
        (hmacSHA1prf.run p3pass (strBytes ("saltSALTsaltSALTsaltSALTsaltSALTsalt") ++ int32be (1 + 1))) =
      [76, 242, 240, 112, 56, 182, 184, 154, 72, 97, 44, 90, 37, 40, 78, 102, 5, 225, 35, 41]
    rw [hu2]
    rw [blockIter_chainP 4095 _ _ (by norm_num) (by norm_num)]
    have hs0 : Nat.add (Nat.shiftLeft (1195043471708982165411790397829092007883657572392 : Nat) 160)
        1195043471708982165411790397829092007883657572392 =
        1746557990584283994521901320496549461780325334523016903462763305496417225821187254866967028690984 := by decide
    rw [hs0]
    rw [chainP_split iState3 oState3 512 3583 4095 (by norm_num)
      1746557990584283994521901320496549461780325334523016903462763305496417225821187254866967028690984,
      c1chainB1]
    rw [chainP_split iState3 oState3 512 3071 3583 (by norm_num)
      2047786844126965403101637911656099923494262444669706808839296226616529711590470613270793393496051,
      c1chainB2]
    rw [chainP_split iState3 oState3 512 2559 3071 (by norm_num)
      138428667267471105247603159455216086569768421914257126327614099716662116213695946525109171197633,
      c1chainB3]
    rw [chainP_split iState3 oState3 512 2047 2559 (by norm_num)
      960994188047350241988890523474955479418430671957616148778247003362469247391889759661134963896430,
      c1chainB4]
    rw [chainP_split iState3 oState3 512 1535 2047 (by norm_num)
      106092747520173505271816366003395876935403503356070926313168498540333279430411581043059459419291,
      c1chainB5]
    rw [chainP_split iState3 oState3 512 1023 1535 (by norm_num)
      1251196442643079453935214797845937512652585686133054781252311811407120309808061780376589756535879,
      c1chainB6]
    rw [chainP_split iState3 oState3 512 511 1023 (by norm_num)
      1553873291559652754844271336943540826720293155216529118195918323572644337821867460475226172045638,
      c1chainB7]
    rw [c1chainB8]
    decide
  have hfin : (((List.range 2).map (fun k => pbkdf2Block hmacSHA1prf p3pass
      (strBytes ("saltSALTsaltSALTsaltSALTsaltSALTsalt")) 4096 (k + 1))).flatten).take 25 =
      [61, 46, 236, 79, 228, 28, 132, 155, 128, 200, 216, 54, 98, 192, 228,
       74, 139, 41, 26, 150, 76, 242, 240, 112, 56] := by
    have hr : List.range 2 = [0, 1] := rfl
    rw [hr]
    simp only [List.map_cons, List.map_nil]
    rw [hB1, hB2]
    rfl
  show Except.ok ((((List.range 2).map (fun k => pbkdf2Block hmacSHA1prf p3pass
      (strBytes ("saltSALTsaltSALTsaltSALTsaltSALTsalt")) 4096 (k + 1))).flatten).take 25) =
    (Except.ok [61, 46, 236, 79, 228, 28, 132, 155, 128, 200, 216, 54, 98,
      192, 228, 74, 139, 41, 26, 150, 76, 242, 240, 112, 56] :
      Except KDFError Bytes)
  exact congrArg Except.ok hfin

/-- The incremental inner loop is the XOR-fold of the U-chain started at
    the PRF of the current U. -/
theorem blockIter_foldl (prf : PRF) (pass : Bytes) (n : Nat) : ∀ u acc : Bytes,
    blockIter prf pass n u acc =
      List.foldl xorBytes acc (uChain prf pass (prf.run pass u) n) := by
  induction n with
  | zero => intro u acc; rfl
  | succ n ih =>
    intro u acc
    rw [blockIter_succ, ih]
    rfl

/-- With at least one iteration, the engine block is the spec-worded
    XOR-fold of the U-chain. -/
theorem pbkdf2Block_rfcBlock (prf : PRF) (pass salt : Bytes) (iterations i : Nat)
    (h : 1 ≤ iterations) :
    pbkdf2Block prf pass salt iterations i = rfcBlock prf pass salt iterations i := by
  obtain ⟨n, rfl⟩ : ∃ n, iterations = n + 1 := ⟨iterations - 1, by omega⟩
  have e1 : pbkdf2Block prf pass salt (n + 1) i =
      blockIter prf pass n (prf.run pass (salt ++ int32be i))
        (prf.run pass (salt ++ int32be i)) := rfl
  rw [e1, blockIter_foldl]
  rfl

/-- C2: Block T_i is the XOR-fold of the chain U_1 = PRF(password,
    salt || INT(i)), U_j = PRF(password, U_{j-1}); the derived key is
    T_1 || ... || T_l truncated to exactly the requested length. -/
theorem block_structure (prf : PRF) (pass salt : Bytes) (iterations len : Nat)
    (h : 1 ≤ iterations) :
    (∀ i : Nat, pbkdf2Block prf pass salt iterations i =
      rfcBlock prf pass salt iterations i) ∧
    pbkdf2 prf pass salt iterations len = rfcDerived prf pass salt iterations len := by
  refine ⟨fun i => pbkdf2Block_rfcBlock prf pass salt iterations i h, ?_⟩
  show (((List.range ((len + prf.hLen - 1) / prf.hLen)).map
      (fun k => pbkdf2Block prf pass salt iterations (k + 1))).flatten).take len =
    (((List.range ((len + prf.hLen - 1) / prf.hLen)).map
      (fun k => rfcBlock prf pass salt iterations (k + 1))).flatten).take len
  have hmap : (List.range ((len + prf.hLen - 1) / prf.hLen)).map
      (fun k => pbkdf2Block prf pass salt iterations (k + 1)) =
    (List.range ((len + prf.hLen - 1) / prf.hLen)).map
      (fun k => rfcBlock prf pass salt iterations (k + 1)) :=
    List.map_congr_left (fun k _ => pbkdf2Block_rfcBlock prf pass salt iterations (k + 1) h)
  rw [hmap]

/-- Witness for C2 at a concrete input. -/
theorem block_structure_witness :
    (∀ i : Nat, pbkdf2Block hmacSHA1prf [] [] 1 i = rfcBlock hmacSHA1prf [] [] 1 i) ∧
    pbkdf2 hmacSHA1prf [] [] 1 20 = rfcDerived hmacSHA1prf [] [] 1 20 :=
  block_structure hmacSHA1prf [] [] 1 20 (by decide)

/-- Every HMAC-SHA1 digest has exactly 20 bytes. -/
theorem hmacSha1_length (key msg : Bytes) : (hmacSha1 key msg).length = 20 :=
  bytesOfNat_length 20 _

/-- The inner loop preserves 20-byte accumulators for the HMAC-SHA1 PRF. -/
theorem blockIter_hmac_length (pass : Bytes) (n : Nat) : ∀ u acc : Bytes,
    acc.length = 20 → (blockIter hmacSHA1prf pass n u acc).length = 20 := by
  induction n with
  | zero => intro u acc h; rw [blockIter_zero]; exact h
  | succ n ih =>
    intro u acc h
    rw [blockIter_succ]
    apply ih
    show (List.zipWith (fun x y => x ^^^ y) acc (hmacSHA1prf.run pass u)).length = 20
    rw [List.length_zipWith, h]
    have h2 : (hmacSHA1prf.run pass u).length = 20 := hmacSha1_length pass u
    rw [h2]
    exact min_self 20

/-- Each engine block for the HMAC-SHA1 PRF has exactly 20 bytes. -/
theorem pbkdf2Block_hmac_length (pass salt : Bytes) (iterations i : Nat) :
    (pbkdf2Block hmacSHA1prf pass salt iterations i).length = 20 := by
  show (blockIter hmacSHA1prf pass (iterations - 1)
      (hmacSHA1prf.run pass (salt ++ int32be i))
      (hmacSHA1prf.run pass (salt ++ int32be i))).length = 20
  exact blockIter_hmac_length pass _ _ _ (hmacSha1_length _ _)

/-- Flattening a list of 20-byte blocks multiplies the length by 20. -/
theorem flatten_length_twenty : ∀ L : List Bytes, (∀ b ∈ L, b.length = 20) →
    L.flatten.length = L.length * 20 := by
  intro L
  induction L with
  | nil => intro _; rfl
  | cons b L ih =>
    intro h
    rw [List.flatten_cons, List.length_append,
      ih (fun x hx => h x (List.mem_cons_of_mem b hx)),
      h b (List.mem_cons_self b L), List.length_cons]
    ring

/-- The engine output for the HMAC-SHA1 PRF has exactly the requested
    length, for every request. -/
theorem pbkdf2_hmac_length (pass salt : Bytes) (iterations len : Nat) :
    (pbkdf2 hmacSHA1prf pass salt iterations len).length = len := by
  show ((((List.range ((len + 20 - 1) / 20)).map
      (fun k => pbkdf2Block hmacSHA1prf pass salt iterations (k + 1))).flatten).take
      len).length = len
  rw [List.length_take]
  have hmem : ∀ b ∈ (List.range ((len + 20 - 1) / 20)).map
      (fun k => pbkdf2Block hmacSHA1prf pass salt iterations (k + 1)), b.length = 20 := by
    intro b hb
    obtain ⟨k, _, rfl⟩ := List.mem_map.mp hb
    exact pbkdf2Block_hmac_length pass salt iterations (k + 1)
  rw [flatten_length_twenty _ hmem, List.length_map, List.length_range]
  omega

/-- Successful calls are engine outputs of the HMAC-SHA1 PRF at the
    natural-number images of the validated parameters. -/
theorem deriveKey_ok (pass salt : Bytes) (iterations outputLength : Int)
    (hash : String) (bs : Bytes)
    (h : deriveKey pass salt iterations outputLength hash = .ok bs) :
    bs = pbkdf2 hmacSHA1prf pass salt iterations.toNat outputLength.toNat ∧
    ¬ outputLength < 0 := by
  unfold deriveKey at h
  split at h
  · exact Except.noConfusion h
  · split at h
    · exact Except.noConfusion h
    · rename_i prf heq
      have hprf : prf = hmacSHA1prf := by
        unfold resolvePRF at heq
        split at heq
        · injection heq with h2
          exact h2.symm
        · exact Option.noConfusion heq
      subst hprf
      unfold deriveKeyWith at h
      split at h
      · exact Except.noConfusion h
      · rename_i hval2
        split at h
        · exact Except.noConfusion h
        · injection h with hbs
          exact ⟨hbs.symm, fun hneg => hval2 (Or.inr hneg)⟩

/-- C3: For every valid request the returned byte sequence has length
    exactly outputLength (outputLength = 0 returns the empty sequence). -/
theorem derived_length_exact (pass salt : Bytes) (iterations outputLength : Int)
    (hash : String) (bs : Bytes)
    (h : deriveKey pass salt iterations outputLength hash = .ok bs) :
    (bs.length : Int) = outputLength := by
  obtain ⟨hbs, hpos⟩ := deriveKey_ok pass salt iterations outputLength hash bs h
  subst hbs
  rw [pbkdf2_hmac_length]
  omega

/-- Witness for C3 at a concrete input, including the outputLength = 0
    empty-output case. -/
theorem derived_length_exact_witness :
    deriveKey [] [] 1 0 ("sha1") = .ok [] ∧ (([] : Bytes).length : Int) = 0 :=
  ⟨rfl, derived_length_exact [] [] 1 0 ("sha1") [] rfl⟩

/-- C4: iterations < 1 is rejected with InvalidParameter, uniformly in the
    PRF capability (so before any PRF invocation can be performed). -/
theorem invalid_iterations (pass salt : Bytes) (iterations outputLength : Int)
    (hash : String) (h : iterations < 1) :
    deriveKey pass salt iterations outputLength hash = .error .invalidParameter ∧
    ∀ prf : PRF, deriveKeyWith prf pass salt iterations outputLength =
      .error .invalidParameter := by
  constructor
  · unfold deriveKey
    rw [if_pos (Or.inl h)]
  · intro prf
    unfold deriveKeyWith
    rw [if_pos (Or.inl h)]

/-- Witness for C4 at iterations = 0. -/
theorem invalid_iterations_witness :
    (0 : Int) < 1 ∧
    (deriveKey [] [] 0 20 ("sha1") = .error .invalidParameter ∧
     ∀ prf : PRF, deriveKeyWith prf [] [] 0 20 = .error .invalidParameter) :=
  ⟨by norm_num, invalid_iterations [] [] 0 20 ("sha1") (by norm_num)⟩

/-- C5: a negative requested output length is rejected with
    InvalidParameter, uniformly in the PRF capability. -/
theorem negative_length (pass salt : Bytes) (iterations outputLength : Int)
    (hash : String) (h : outputLength < 0) :
    deriveKey pass salt iterations outputLength hash = .error .invalidParameter ∧
    ∀ prf : PRF, deriveKeyWith prf pass salt iterations outputLength =
      .error .invalidParameter := by
  constructor
  · unfold deriveKey
    rw [if_pos (Or.inr h)]
  · intro prf
    unfold deriveKeyWith
    rw [if_pos (Or.inr h)]

/-- Witness for C5 at outputLength = -1. -/
theorem negative_length_witness :
    (-1 : Int) < 0 ∧
    (deriveKey [] [] 1000 (-1) ("sha1") = .error .invalidParameter ∧
     ∀ prf : PRF, deriveKeyWith prf [] [] 1000 (-1) = .error .invalidParameter) :=
  ⟨by norm_num, negative_length [] [] 1000 (-1) ("sha1") (by norm_num)⟩

/-- C6: a hash identifier that does not resolve to a PRF capability makes
    the call fail with UnsupportedHashAlgorithm. -/
theorem unsupported_hash (pass salt : Bytes) (iterations outputLength : Int)
    (hash : String) (hi : 1 ≤ iterations) (hl : 0 ≤ outputLength)
    (h : resolvePRF hash = none) :
    deriveKey pass salt iterations outputLength hash =
      .error .unsupportedHashAlgorithm := by
  unfold deriveKey
  rw [if_neg (by omega), h]

/-- Witness for C6 at the unknown identifier "md5". -/
theorem unsupported_hash_witness :
    (1 : Int) ≤ 1 ∧ (0 : Int) ≤ 20 ∧ resolvePRF ("md5") = none ∧
    deriveKey [] [] 1 20 ("md5") = .error .unsupportedHashAlgorithm :=
  ⟨by norm_num, by norm_num, rfl,
   unsupported_hash [] [] 1 20 ("md5") (by norm_num) (by norm_num) rfl⟩

/-- C7: a request whose block count exceeds 2^32 - 1 fails with
    OutputTooLarge. -/
theorem output_too_large (pass salt : Bytes) (iterations outputLength : Int)
    (hash : String) (prf : PRF) (hi : 1 ≤ iterations) (hl : 0 ≤ outputLength)
    (hres : resolvePRF hash = some prf)
    (hbig : 2 ^ 32 - 1 < (outputLength.toNat + prf.hLen - 1) / prf.hLen) :
    deriveKey pass salt iterations outputLength hash = .error .outputTooLarge := by
  have hstep : deriveKey pass salt iterations outputLength hash =
      deriveKeyWith prf pass salt iterations outputLength := by
    unfold deriveKey
    rw [if_neg (by omega : ¬(iterations < 1 ∨ outputLength < 0)), hres]
  rw [hstep]
  unfold deriveKeyWith
  rw [if_neg (by omega : ¬(iterations < 1 ∨ outputLength < 0)), if_pos hbig]

/-- Witness for C7 at outputLength = 20 * 2^32. -/
theorem output_too_large_witness :
    (1 : Int) ≤ 1 ∧ (0 : Int) ≤ 85899345920 ∧
    resolvePRF ("sha1") = some hmacSHA1prf ∧
    2 ^ 32 - 1 < (((85899345920 : Int)).toNat + hmacSHA1prf.hLen - 1) / hmacSHA1prf.hLen ∧
    deriveKey [] [] 1 85899345920 ("sha1") = .error .outputTooLarge :=
  ⟨by norm_num, by norm_num, rfl, by decide,
   output_too_large [] [] 1 85899345920 ("sha1") hmacSHA1prf (by norm_num)
     (by norm_num) rfl (by decide)⟩

/-- C8: the derivation is a deterministic pure function of its inputs:
    equal argument tuples give byte-identical results. -/
theorem deriveKey_deterministic (pass1 pass2 salt1 salt2 : Bytes)
    (it1 it2 len1 len2 : Int) (hash1 hash2 : String)
    (hp : pass1 = pass2) (hs : salt1 = salt2) (hi : it1 = it2)
    (hl : len1 = len2) (hh : hash1 = hash2) :
    deriveKey pass1 salt1 it1 len1 hash1 = deriveKey pass2 salt2 it2 len2 hash2 := by
  rw [hp, hs, hi, hl, hh]

/-- Witness for C8 at a concrete input. -/
theorem deriveKey_deterministic_witness :
    deriveKey [] [] 1 20 ("sha1") = deriveKey [] [] 1 20 ("sha1") :=
  deriveKey_deterministic [] [] [] [] 1 1 20 20 ("sha1") ("sha1")
    rfl rfl rfl rfl rfl

/-- A shorter request is a truncation of a longer one at the engine level. -/
theorem pbkdf2_hmac_take (pass salt : Bytes) (iterations len1 len2 : Nat)
    (h : len1 ≤ len2) :
    pbkdf2 hmacSHA1prf pass salt iterations len1 =
      (pbkdf2 hmacSHA1prf pass salt iterations len2).take len1 := by
  show (((List.range ((len1 + 20 - 1) / 20)).map
      (fun k => pbkdf2Block hmacSHA1prf pass salt iterations (k + 1))).flatten).take len1 =
    ((((List.range ((len2 + 20 - 1) / 20)).map
      (fun k => pbkdf2Block hmacSHA1prf pass salt iterations (k + 1))).flatten).take
      len2).take len1
  rw [List.take_take, min_eq_left h]
  obtain ⟨d, hd⟩ : ∃ d, (len2 + 20 - 1) / 20 = (len1 + 20 - 1) / 20 + d :=
    ⟨(len2 + 20 - 1) / 20 - (len1 + 20 - 1) / 20, by omega⟩
  rw [hd, List.range_add, List.map_append, List.flatten_append]
  have hmem : ∀ b ∈ (List.range ((len1 + 20 - 1) / 20)).map
      (fun k => pbkdf2Block hmacSHA1prf pass salt iterations (k + 1)), b.length = 20 := by
    intro b hb
    obtain ⟨k, _, rfl⟩ := List.mem_map.mp hb
    exact pbkdf2Block_hmac_length pass salt iterations (k + 1)
  have hlen : len1 ≤ (((List.range ((len1 + 20 - 1) / 20)).map
      (fun k => pbkdf2Block hmacSHA1prf pass salt iterations (k + 1))).flatten).length := by
    rw [flatten_length_twenty _ hmem, List.length_map, List.length_range]
    omega
  rw [List.take_append_of_le_length hlen]

/-- C9: outputs for a smaller requested length are truncations (leading
    bytes) of outputs for a larger requested length; block T_i does not
    depend on the total block count. -/
theorem derive_monotone (pass salt : Bytes) (iterations len1 len2 : Int)
    (hash : String) (b1 b2 : Bytes) (h12 : len1 ≤ len2)
    (e1 : deriveKey pass salt iterations len1 hash = .ok b1)
    (e2 : deriveKey pass salt iterations len2 hash = .ok b2) :
    b1 = b2.take len1.toNat := by
  obtain ⟨hb1, -⟩ := deriveKey_ok pass salt iterations len1 hash b1 e1
  obtain ⟨hb2, -⟩ := deriveKey_ok pass salt iterations len2 hash b2 e2
  subst hb1
  subst hb2
  exact pbkdf2_hmac_take pass salt iterations.toNat len1.toNat len2.toNat (by omega)

/-- Witness for C9: the 20-byte derivation is the head of the 40-byte one. -/
theorem derive_monotone_witness :
    (20 : Int) ≤ 40 ∧
    deriveKey (strBytes ("password")) (strBytes ("salt")) 1 20 ("sha1") =
      .ok [12, 96, 200, 15, 150, 31, 14, 113, 243, 169,
           181, 36, 175, 96, 18, 6, 47, 224, 55, 166] ∧
    deriveKey (strBytes ("password")) (strBytes ("salt")) 1 40 ("sha1") =
      .ok [12, 96, 200, 15, 150, 31, 14, 113, 243, 169,
           181, 36, 175, 96, 18, 6, 47, 224, 55, 166,
           224, 240, 235, 148, 254, 143, 196, 107, 220, 99,
           113, 100, 172, 46, 122, 142, 63, 157, 46, 131] ∧
    [12, 96, 200, 15, 150, 31, 14, 113, 243, 169,
     181, 36, 175, 96, 18, 6, 47, 224, 55, 166] =
      ([12, 96, 200, 15, 150, 31, 14, 113, 243, 169,
        181, 36, 175, 96, 18, 6, 47, 224, 55, 166,
        224, 240, 235, 148, 254, 143, 196, 107, 220, 99,
        113, 100, 172, 46, 122, 142, 63, 157, 46, 131] : Bytes).take (20 : Int).toNat :=
  ⟨by norm_num, rfl, rfl,
   derive_monotone (strBytes ("password")) (strBytes ("salt")) 1 20 40 ("sha1")
     [12, 96, 200, 15, 150, 31, 14, 113, 243, 169,
      181, 36, 175, 96, 18, 6, 47, 224, 55, 166]
     [12, 96, 200, 15, 150, 31, 14, 113, 243, 169,
      181, 36, 175, 96, 18, 6, 47, 224, 55, 166,
      224, 240, 235, 148, 254, 143, 196, 107, 220, 99,
      113, 100, 172, 46, 122, 142, 63, 157, 46, 131]
     (by norm_num) rfl rfl⟩

end OsslKDF

